import Mathlib

/-
Verification of the archctl DocHub validator CLI.

The development shallowly embeds the validation orchestration of
src/validator.mjs (the validateManifest pipeline and the validator
engine promise inside it) and the exit-code mapping of the CLI action
handler in src/cli.mjs.  External collaborators (the filesystem, the
DocHub modules loaded dynamically, the rule-expression evaluator) are
modelled as an explicit environment value: the embedding describes, for
every possible behavior of those collaborators, what the code under
verification computes.
-/

set_option maxHeartbeats 1000000

namespace Archctl

/-- Model of the JS String.prototype.startsWith check: p is a prefix of s,
compared character by character. -/
def strStartsWith (s p : String) : Bool := p.data.isPrefixOf s.data

/-- ASCII lowercasing of one character, as toLowerCase acts on the format
names involved here. -/
def charLower (c : Char) : Char :=
  if 65 ≤ c.toNat ∧ c.toNat ≤ 90 then Char.ofNat (c.toNat + 32) else c

/-- Model of the JS String.prototype.toLowerCase call of cli.mjs line 50. -/
def strToLower (s : String) : String := String.mk (s.data.map charLower)

/-- One issue item produced by a validator rule.  The orchestration code only
ever inspects the number of items, so an item is kept abstract as a string. -/
abbrev RuleItem := String

/-- Result object reported for one validator rule, mirroring the objects the
rule evaluator hands to the completion callback and that validator.mjs pushes
into the validatorResults array.  The items field is an Option so that a JS
value of undefined or null is representable. -/
structure RuleResult where
  id : String
  title : String
  items : Option (List RuleItem)
  error : Option String
deriving DecidableEq

/-- A load-time diagnostic entry read out of the error cache
(cache.errors, validator.mjs line 188). -/
structure Diagnostic where
  id : String
  message : String
deriving DecidableEq

/-- State of the validation promise of validator.mjs lines 215-253: the
validatorResults array, the completedCount counter, and the value the promise
was resolved with (none while the promise is still pending). -/
structure EngineRun where
  results : List RuleResult
  completed : Nat
  resolvedWith : Option (List RuleResult)
deriving DecidableEq

/-- A JS promise can be resolved only once: a second resolve call is ignored. -/
def resolveOnce (cur : Option (List RuleResult)) (v : List RuleResult) :
    Option (List RuleResult) :=
  match cur with
  | some x => some x
  | none => some v

/-- The onValidatorComplete callback of validator.mjs lines 224-235: push the
reported validator result, increment completedCount, and resolve the promise
as soon as completedCount has reached validatorCount. -/
def engineStep (N : Nat) (s : EngineRun) (r : RuleResult) : EngineRun :=
  let results := s.results ++ [r]
  let completed := s.completed + 1
  { results := results
    completed := completed
    resolvedWith :=
      if N ≤ completed then resolveOnce s.resolvedWith results else s.resolvedWith }

/-- The safety-timeout callback of validator.mjs lines 245-252: when the timer
fires with fewer than validatorCount completions, resolve the promise with
whatever results have arrived so far; otherwise do nothing. -/
def engineTimeout (N : Nat) (s : EngineRun) : EngineRun :=
  if s.completed < N then
    { s with resolvedWith := resolveOnce s.resolvedWith s.results }
  else s

/-- Delay of the safety timer, validator.mjs line 252, in milliseconds. -/
def validatorTimeoutMs : Nat := 10000

/-- Initial state of the validation promise: empty results array, zero
completed count, promise pending. -/
def engineStart : EngineRun := { results := [], completed := 0, resolvedWith := none }

/-- Observable outcome of the validation promise: the list of validator
results the awaiting code reads once the promise resolves, plus whether the
external rule evaluator was invoked and whether the safety timer was
started. -/
structure EngineOutcome where
  results : List RuleResult
  validatorsInvoked : Bool
  timerStarted : Bool
deriving DecidableEq

/-- The validation promise of validator.mjs lines 215-256.  The completion
events the rule evaluator delivers strictly before the safety timer fires are
listed in before, those delivered afterwards in after; a rule that never
completes appears in neither list.  With validatorCount zero the promise
resolves immediately, before the evaluator is invoked or the timer is
started; otherwise the callbacks run in event order and the awaiting code
reads the value the promise was first resolved with. -/
def runEngine (N : Nat) (before after : List RuleResult) : EngineOutcome :=
  if N = 0 then
    { results := [], validatorsInvoked := false, timerStarted := false }
  else
    let s1 := before.foldl (engineStep N) engineStart
    let s2 := engineTimeout N s1
    let s3 := after.foldl (engineStep N) s2
    { results := s3.resolvedWith.getD s3.results
      validatorsInvoked := true
      timerStarted := true }

/-- The pair of callbacks handed to the external validators evaluator at the
call site of validator.mjs lines 237-242: the third argument (success
callback) and the fourth argument (reject callback). -/
structure ValidatorsInvocation where
  onSuccess : EngineRun → RuleResult → EngineRun
  onReject : EngineRun → RuleResult → EngineRun

/-- The actual call site passes onValidatorComplete in both positions. -/
def validatorsCall (N : Nat) : ValidatorsInvocation :=
  { onSuccess := engineStep N, onReject := engineStep N }

theorem engineFold_results (N : Nat) (l : List RuleResult) (s : EngineRun) :
    (l.foldl (engineStep N) s).results = s.results ++ l := by
  induction l generalizing s with
  | nil => simp
  | cons a t ih =>
      simp only [List.foldl_cons]
      rw [ih]
      simp [engineStep]

theorem engineFold_completed (N : Nat) (l : List RuleResult) (s : EngineRun) :
    (l.foldl (engineStep N) s).completed = s.completed + l.length := by
  induction l generalizing s with
  | nil => simp
  | cons a t ih =>
      simp only [List.foldl_cons]
      rw [ih]
      simp [engineStep]
      omega

theorem engineStep_resolved_some (N : Nat) (s : EngineRun) (r : RuleResult)
    (v : List RuleResult) (h : s.resolvedWith = some v) :
    (engineStep N s r).resolvedWith = some v := by
  simp only [engineStep, h, resolveOnce]
  split <;> rfl

theorem engineFold_resolved_some (N : Nat) (l : List RuleResult) (s : EngineRun)
    (v : List RuleResult) (h : s.resolvedWith = some v) :
    (l.foldl (engineStep N) s).resolvedWith = some v := by
  induction l generalizing s with
  | nil => simpa using h
  | cons a t ih =>
      simp only [List.foldl_cons]
      exact ih _ (engineStep_resolved_some N s a v h)

theorem engineFold_resolve (N : Nat) (l : List RuleResult) (s : EngineRun)
    (h : s.resolvedWith = none) (hlt : s.completed < N) :
    (l.foldl (engineStep N) s).resolvedWith =
      if N ≤ s.completed + l.length then
        some (s.results ++ l.take (N - s.completed))
      else none := by
  induction l generalizing s with
  | nil =>
      simp only [List.foldl_nil, List.length_nil, Nat.add_zero, List.take_nil,
        List.append_nil]
      rw [if_neg (by omega)]
      exact h
  | cons a t ih =>
      simp only [List.foldl_cons]
      by_cases hN : N ≤ s.completed + 1
      · have hres : (engineStep N s a).resolvedWith = some (s.results ++ [a]) := by
          simp [engineStep, h, resolveOnce, hN]
        rw [engineFold_resolved_some N t _ _ hres]
        rw [if_pos (by simp only [List.length_cons]; omega)]
        have hone : N - s.completed = 1 := by omega
        rw [hone]
        simp
      · have hres : (engineStep N s a).resolvedWith = none := by
          simp [engineStep, h, hN]
        have hc : (engineStep N s a).completed = s.completed + 1 := by
          simp [engineStep]
        have hr : (engineStep N s a).results = s.results ++ [a] := by
          simp [engineStep]
        rw [ih _ hres (by rw [hc]; omega), hc, hr]
        by_cases hN2 : N ≤ s.completed + (t.length + 1)
        · rw [if_pos (by omega), if_pos (by simp only [List.length_cons]; omega)]
          have hsplit : N - s.completed = (N - (s.completed + 1)) + 1 := by omega
          rw [hsplit]
          simp [List.take_succ_cons]
        · rw [if_neg (by omega), if_neg (by simp only [List.length_cons]; omega)]

theorem runEngine_results (N : Nat) (before after : List RuleResult)
    (hN : N ≠ 0) :
    (runEngine N before after).results = before.take N := by
  have hpos : 0 < N := Nat.pos_of_ne_zero hN
  have hfold : (before.foldl (engineStep N) engineStart).resolvedWith =
      if N ≤ before.length then some (before.take N) else none := by
    have h := engineFold_resolve N before engineStart rfl hpos
    simpa [engineStart] using h
  have hcomp : (before.foldl (engineStep N) engineStart).completed = before.length := by
    have h := engineFold_completed N before engineStart
    simpa [engineStart] using h
  have hres : (before.foldl (engineStep N) engineStart).results = before := by
    have h := engineFold_results N before engineStart
    simpa [engineStart] using h
  simp only [runEngine, hN, if_false, ite_false]
  by_cases hle : N ≤ before.length
  · have h1 : (before.foldl (engineStep N) engineStart).resolvedWith =
        some (before.take N) := by
      rw [hfold, if_pos hle]
    have h2 : engineTimeout N (before.foldl (engineStep N) engineStart) =
        before.foldl (engineStep N) engineStart := by
      unfold engineTimeout
      rw [if_neg (by omega)]
    rw [h2, engineFold_resolved_some N after _ _ h1, Option.getD_some]
  · have h1 : (before.foldl (engineStep N) engineStart).resolvedWith = none := by
      rw [hfold, if_neg hle]
    have h2 : (engineTimeout N (before.foldl (engineStep N) engineStart)).resolvedWith =
        some before := by
      unfold engineTimeout
      rw [if_pos (by omega)]
      simp only [resolveOnce, h1, hres]
    rw [engineFold_resolved_some N after _ _ h2, Option.getD_some]
    exact (List.take_of_length_le (by omega)).symm

/-- Sample validator result: a rule that completed with an empty items list. -/
def vClean : RuleResult :=
  { id := "arch.clean", title := "Clean rule", items := some [], error := none }

/-- Sample validator result: a rule that found one issue. -/
def vBad : RuleResult :=
  { id := "arch.bad", title := "Bad rule", items := some ["issue-1"], error := none }

/-- Sample validator result: a diagnostic-tagged result carrying items. -/
def vTagged : RuleResult :=
  { id := "$error.net", title := "Loading diagnostic", items := some ["issue-2"],
    error := none }

/-- Sample validator result: a rule whose evaluation raised. -/
def vFailed : RuleResult :=
  { id := "arch.fail", title := "Failing rule", items := none, error := some "boom" }

/-- C3: the validation promise resolves either when all N rules have reported
completion or when the 10000 ms safety timer fires, whichever comes first; on
timer expiry the engine proceeds with exactly the results that arrived before
the timer, and a rule still outstanding is simply absent from the result list,
with no error entry synthesized for it. -/
theorem c3_timeout_ceiling (N : Nat) (before after : List RuleResult)
    (hN : 0 < N) :
    validatorTimeoutMs = 10000 ∧
    (before.length < N → (runEngine N before after).results = before) ∧
    (N ≤ before.length → (runEngine N before after).results = before.take N) := by
  refine ⟨rfl, ?_, ?_⟩
  · intro hlt
    rw [runEngine_results N before after (by omega)]
    exact List.take_of_length_le (by omega)
  · intro _
    exact runEngine_results N before after (by omega)

/-- Witness for C3 at a concrete run: two configured rules, only one completes
before the timer fires, and the engine returns exactly that one result. -/
theorem c3_witness :
    0 < 2 ∧ ([vBad] : List RuleResult).length < 2 ∧
    (runEngine 2 [vBad] [vClean]).results = [vBad] :=
  ⟨by decide, by decide, (c3_timeout_ceiling 2 [vBad] [vClean] (by decide)).2.1 (by decide)⟩

/-- C4: the call site hands the same onValidatorComplete function to the rule
evaluator as success callback and as reject callback; a rule whose evaluation
failed (error field populated) is recorded in the results array and increments
the completed count exactly like a successful one, and its presence does not
prevent the results of the remaining rules from being collected. -/
theorem c4_single_completion_channel (N : Nat) (s : EngineRun) (r : RuleResult)
    (rest : List RuleResult) (e : String) (hthrew : r.error = some e) :
    (validatorsCall N).onSuccess = (validatorsCall N).onReject ∧
    (engineStep N s r).results = s.results ++ [r] ∧
    (engineStep N s r).completed = s.completed + 1 ∧
    ((r :: rest).foldl (engineStep N) s).results = s.results ++ r :: rest := by
  exact ⟨rfl, rfl, rfl, engineFold_results N (r :: rest) s⟩

/-- Witness for C4 at a concrete run: a failed rule result is pushed, counts as
completed, and the following result is still collected. -/
theorem c4_witness :
    vFailed.error = some "boom" ∧
    (engineStep 2 engineStart vFailed).results = [] ++ [vFailed] ∧
    (engineStep 2 engineStart vFailed).completed = 0 + 1 ∧
    ((vFailed :: [vClean]).foldl (engineStep 2) engineStart).results =
      [] ++ vFailed :: [vClean] := by
  have h := c4_single_completion_channel 2 engineStart vFailed [vClean] "boom" rfl
  exact ⟨rfl, h.2.1, h.2.2.1, h.2.2.2⟩

/-- C5: with zero configured rules the validation promise resolves immediately
with an empty result list; the rule evaluator is never invoked and the safety
timer is never started, so no part of the 10 second ceiling is waited. -/
theorem c5_zero_rule_fast_path (before after : List RuleResult) :
    runEngine 0 before after =
      { results := [], validatorsInvoked := false, timerStarted := false } := by
  simp [runEngine]

/-- C8: the result list reflects completion order, not declaration order: the
engine returns exactly the first N completion events in the order in which
they were reported, with no sorting applied. -/
theorem c8_completion_order (N : Nat) (before after : List RuleResult)
    (hN : N ≠ 0) :
    (runEngine N before after).results = before.take N :=
  runEngine_results N before after hN

/-- Witness for C8 at a concrete run: two rules completing in the order
vClean (id arch.clean) then vBad (id arch.bad) are returned in exactly that
order, although sorting by rule id would have put arch.bad first. -/
theorem c8_witness :
    (2 : Nat) ≠ 0 ∧
    (runEngine 2 [vClean, vBad] []).results = [vClean, vBad] ∧
    vClean.id = "arch.clean" ∧ vBad.id = "arch.bad" :=
  ⟨by decide, by rw [c8_completion_order 2 [vClean, vBad] [] (by decide)]; rfl, rfl, rfl⟩

/-- Abstract model of path resolution by the Node path module: resolve p, and
resolve(base, p).  The pipeline treats the resolved strings opaquely, so the
two functions are environment data. -/
structure PathModel where
  resolve : String → String
  resolveIn : String → String → String

/-- Options of validateManifest (validator.mjs lines 79-83); a field left none
falls back to the destructuring default: process.cwd() for workspace,
dochub.yaml for rootManifest, false for verbose. -/
structure ValidateOptions where
  workspace : Option String
  rootManifest : Option String
  verbose : Option Bool

/-- One entry of the problems list of a report: a load-time diagnostic from
the error cache, a validator rule result, or the synthetic critical-error
object built in the catch branch of validator.mjs lines 294-299. -/
inductive Problem where
  | diag (d : Diagnostic)
  | rule (r : RuleResult)
  | critical (id title error : String) (stack : Option String)
deriving DecidableEq

/-- The stats object of a validation report, validator.mjs lines 278-282. -/
structure ReportStats where
  totalIssues : Nat
  loadingErrors : Nat
  validationErrors : Nat
deriving DecidableEq

/-- The manifest object of a validation report, validator.mjs lines 272-276. -/
structure ManifestInfo where
  loaded : Bool
  path : String
  workspace : String
deriving DecidableEq

/-- The validation report returned by validateManifest. -/
structure Report where
  success : Bool
  manifest : ManifestInfo
  problems : List Problem
  stats : ReportStats
deriving DecidableEq

/-- Session steps validateManifest performs, in program order; the returned
trace records which of them ran, so that the eager input checks can be shown
to fire before any session state is touched. -/
inductive SessionAction where
  | initEnvironment
  | clearErrorCache
  | loadManifest
  | processEntities
  | buildDatasets
  | runValidators
deriving DecidableEq

/-- Behavior of the dynamically imported DocHub modules inside the try block
of validator.mjs lines 173-283: either every awaited step returns, yielding
the loading errors collected in the error cache, the number of configured
validator rules, and the completion timeline of the rule evaluator split at
the safety timer; or some step raises with the given message and stack after
the listed in-try actions already ran. -/
inductive PipelineOutcome where
  | ok (loadingErrors : List Diagnostic) (validatorCount : Nat)
      (before after : List RuleResult)
  | thrown (message stack : String) (ran : List SessionAction)

/-- Behavior of the pre-try setup stage that runs after getDocHubPath but
still outside the try block: the eight dynamic module imports of
validator.mjs lines 124-143, the parser wiring of lines 146-168, and
cache.errorClear() at line 171.  Any of these can throw, for example when the
DocHub directory exists but contains no usable source, and such an error
propagates to the caller instead of being converted to a report; clearedCache
records whether cache.errorClear() had already completed when the throw
happened. -/
inductive SetupOutcome where
  | ok
  | failed (message : String) (clearedCache : Bool)

/-- External environment of one validateManifest call: the path resolver, the
filesystem answers to the two eager existence checks of validator.mjs lines
89-95, the outcome of getDocHubPath (the first existing candidate path, or
none when no candidate exists, validator.mjs lines 49-68; existence of the
candidate directory says nothing about its contents), the outcome of the
fallible pre-try setup stage (module imports and error-cache clearing), and
the behavior of the DocHub pipeline modules inside the try block. -/
structure Env where
  paths : PathModel
  workspaceDirExists : Bool
  manifestPathExists : Bool
  dochubPath : Option String
  setup : SetupOutcome
  pipeline : PipelineOutcome

/-- The filter of validator.mjs lines 262-264: a validator result counts as a
real validation issue when its items field is present and nonempty and its id
does not start with the diagnostic tag. -/
def isRealIssue (v : RuleResult) : Bool :=
  (match v.items with
   | some items => decide (0 < items.length)
   | none => false) && !(strStartsWith v.id "$error")

/-- Error message thrown by getDocHubPath when no candidate DocHub
installation path exists, validator.mjs lines 62-67. -/
def dochubNotFoundMessage : String :=
  "DocHub not found. Please ensure DocHub is available via:\n" ++
  "  - Git submodule: git submodule update --init --recursive\n" ++
  "  - Sibling directory: ../DocHub\n" ++
  "  - Symlink: ln -s /path/to/DocHub dochub"

/-- Shallow embedding of validateManifest (validator.mjs lines 78-307).
Returns the report, or the error propagated to the caller, together with the
trace of session actions that ran; cwd models process.cwd().  The eager
existence checks reject missing workspace or root manifest before anything
else happens; getDocHubPath throws before the try block; the dynamic module
imports and cache.errorClear() also run before the try block, so an error
they raise propagates as well; only inside the try does the catch branch
convert a raised error into the degenerate report. -/
def validateManifest (cwd : String) (options : ValidateOptions) (env : Env) :
    Except String Report × List SessionAction :=
  let workspace := options.workspace.getD cwd
  let rootManifest := options.rootManifest.getD "dochub.yaml"
  let verbose := options.verbose.getD false
  let workspaceDir := env.paths.resolve workspace
  let manifestPath := env.paths.resolveIn workspaceDir rootManifest
  if !env.workspaceDirExists then
    (Except.error ("Workspace directory not found: " ++ workspaceDir), [])
  else if !env.manifestPathExists then
    (Except.error ("Root manifest not found: " ++ manifestPath), [])
  else
    match env.dochubPath with
    | none => (Except.error dochubNotFoundMessage, [SessionAction.initEnvironment])
    | some _ =>
      match env.setup with
      | SetupOutcome.failed message clearedCache =>
          (Except.error message,
           [SessionAction.initEnvironment] ++
             (if clearedCache then [SessionAction.clearErrorCache] else []))
      | SetupOutcome.ok =>
      match env.pipeline with
      | PipelineOutcome.thrown message stack ran =>
          (Except.ok
            { success := false
              manifest := { loaded := false, path := manifestPath, workspace := workspaceDir }
              problems := [Problem.critical "critical-error" "Critical Error" message
                (if verbose then some stack else none)]
              stats := { totalIssues := 1, loadingErrors := 1, validationErrors := 0 } },
           [SessionAction.initEnvironment, SessionAction.clearErrorCache] ++ ran)
      | PipelineOutcome.ok loadingErrors validatorCount before after =>
          let validatorResults := (runEngine validatorCount before after).results
          let allProblems :=
            loadingErrors.map Problem.diag ++ validatorResults.map Problem.rule
          let realValidationIssues := validatorResults.filter isRealIssue
          (Except.ok
            { success := realValidationIssues.length == 0
              manifest := { loaded := true, path := manifestPath, workspace := workspaceDir }
              problems := allProblems
              stats := { totalIssues := allProblems.length
                         loadingErrors := loadingErrors.length
                         validationErrors := realValidationIssues.length } },
           [SessionAction.initEnvironment, SessionAction.clearErrorCache,
            SessionAction.loadManifest, SessionAction.processEntities,
            SessionAction.buildDatasets, SessionAction.runValidators])

theorem isRealIssue_eq_true_iff (v : RuleResult) :
    isRealIssue v = true ↔
      (∃ items, v.items = some items ∧ 0 < items.length) ∧
      strStartsWith v.id "$error" = false := by
  unfold isRealIssue
  cases h : v.items <;> simp [h]

theorem filter_isRealIssue_eq_nil_iff (l : List RuleResult) :
    l.filter isRealIssue = [] ↔ ∀ v ∈ l, isRealIssue v = false := by
  induction l with
  | nil => simp
  | cons a t ih =>
      by_cases h : isRealIssue a <;> simp [List.filter_cons, h, ih]

/-- Convenience description of the propagating error when the pre-try setup
stage (module imports, error-cache clearing) throws. -/
theorem validateManifest_setup_failed (cwd : String) (options : ValidateOptions)
    (env : Env) (msg : String) (clearedCache : Bool) (p : String)
    (hw : env.workspaceDirExists = true) (hm : env.manifestPathExists = true)
    (hd : env.dochubPath = some p)
    (hs : env.setup = SetupOutcome.failed msg clearedCache) :
    (validateManifest cwd options env).1 = Except.error msg := by
  simp [validateManifest, hw, hm, hd, hs]

/-- Convenience description of the report built on the normal (non-catch)
return path of validateManifest, validator.mjs lines 270-283. -/
theorem validateManifest_normal (cwd : String) (options : ValidateOptions)
    (env : Env) (d : List Diagnostic) (N : Nat) (before after : List RuleResult)
    (p : String) (hw : env.workspaceDirExists = true)
    (hm : env.manifestPathExists = true) (hd : env.dochubPath = some p)
    (hs : env.setup = SetupOutcome.ok)
    (hp : env.pipeline = PipelineOutcome.ok d N before after) :
    (validateManifest cwd options env).1 = Except.ok
      { success := ((runEngine N before after).results.filter isRealIssue).length == 0
        manifest :=
          { loaded := true
            path := env.paths.resolveIn (env.paths.resolve (options.workspace.getD cwd))
              (options.rootManifest.getD "dochub.yaml")
            workspace := env.paths.resolve (options.workspace.getD cwd) }
        problems := d.map Problem.diag ++ (runEngine N before after).results.map Problem.rule
        stats :=
          { totalIssues :=
              (d.map Problem.diag ++ (runEngine N before after).results.map Problem.rule).length
            loadingErrors := d.length
            validationErrors :=
              ((runEngine N before after).results.filter isRealIssue).length } } := by
  simp [validateManifest, hw, hm, hd, hs, hp]

/-- A run that returned a report at all must have passed the pre-try setup
stage, since a setup failure propagates as an error. -/
theorem setup_ok_of_ok_result (cwd : String) (options : ValidateOptions)
    (env : Env) (r : Report) (p : String)
    (hw : env.workspaceDirExists = true) (hm : env.manifestPathExists = true)
    (hd : env.dochubPath = some p)
    (hr : (validateManifest cwd options env).1 = Except.ok r) :
    env.setup = SetupOutcome.ok := by
  cases hsetup : env.setup with
  | ok => rfl
  | failed msg clearedCache =>
      rw [validateManifest_setup_failed cwd options env msg clearedCache p
        hw hm hd hsetup] at hr
      exact absurd hr (by simp)

/-- C1: for every run of validateManifest that returns on the normal
(non-catch) path, success is true exactly when the list of validator results
contains no result that both has at least one item and has an id not starting
with the diagnostic tag; a diagnostic-tagged result is never counted toward
validationErrors and never makes success false even if it has items. -/
theorem c1_success_iff_no_real_issue (cwd : String) (options : ValidateOptions)
    (env : Env) (r : Report) (d : List Diagnostic) (N : Nat)
    (before after : List RuleResult) (p : String)
    (hw : env.workspaceDirExists = true) (hm : env.manifestPathExists = true)
    (hd : env.dochubPath = some p)
    (hp : env.pipeline = PipelineOutcome.ok d N before after)
    (hr : (validateManifest cwd options env).1 = Except.ok r) :
    (r.success = true ↔
      ∀ v ∈ (runEngine N before after).results,
        ¬((∃ items, v.items = some items ∧ 0 < items.length) ∧
          strStartsWith v.id "$error" = false)) ∧
    r.stats.validationErrors =
      ((runEngine N before after).results.filter isRealIssue).length ∧
    (∀ v ∈ (runEngine N before after).results,
      strStartsWith v.id "$error" = true → isRealIssue v = false) := by
  have hs := setup_ok_of_ok_result cwd options env r p hw hm hd hr
  rw [validateManifest_normal cwd options env d N before after p hw hm hd hs hp] at hr
  cases hr
  refine ⟨?_, rfl, ?_⟩
  · show (((runEngine N before after).results.filter isRealIssue).length == 0) = true ↔ _
    rw [beq_iff_eq, List.length_eq_zero, filter_isRealIssue_eq_nil_iff]
    constructor
    · intro h v hv hcontra
      have := h v hv
      rw [← isRealIssue_eq_true_iff] at hcontra
      simp [hcontra] at this
    · intro h v hv
      by_contra hne
      have htrue : isRealIssue v = true := by
        cases hb : isRealIssue v
        · exact absurd hb hne
        · rfl
      exact h v hv ((isRealIssue_eq_true_iff v).mp htrue)
  · intro v _ htag
    unfold isRealIssue
    rw [htag]
    cases v.items <;> simp

/-- Convenience description of the degenerate report built by the catch
branch of validateManifest, validator.mjs lines 285-306. -/
theorem validateManifest_catch (cwd : String) (options : ValidateOptions)
    (env : Env) (msg stack : String) (ran : List SessionAction) (p : String)
    (hw : env.workspaceDirExists = true) (hm : env.manifestPathExists = true)
    (hd : env.dochubPath = some p) (hs : env.setup = SetupOutcome.ok)
    (hp : env.pipeline = PipelineOutcome.thrown msg stack ran) :
    (validateManifest cwd options env).1 = Except.ok
      { success := false
        manifest :=
          { loaded := false
            path := env.paths.resolveIn (env.paths.resolve (options.workspace.getD cwd))
              (options.rootManifest.getD "dochub.yaml")
            workspace := env.paths.resolve (options.workspace.getD cwd) }
        problems := [Problem.critical "critical-error" "Critical Error" msg
          (if options.verbose.getD false then some stack else none)]
        stats := { totalIssues := 1, loadingErrors := 1, validationErrors := 0 } } := by
  simp [validateManifest, hw, hm, hd, hs, hp]

/-- C2: when the pipeline inside the try block raises after the eager input
checks passed, validateManifest does not propagate the exception: it returns
the degenerate report with success false, manifest.loaded false, exactly one
problem with id critical-error carrying the failure message, and stats
totalIssues 1, loadingErrors 1, validationErrors 0. -/
theorem c2_catch_branch (cwd : String) (options : ValidateOptions) (env : Env)
    (msg stack : String) (ran : List SessionAction) (p : String)
    (hw : env.workspaceDirExists = true) (hm : env.manifestPathExists = true)
    (hd : env.dochubPath = some p) (hs : env.setup = SetupOutcome.ok)
    (hp : env.pipeline = PipelineOutcome.thrown msg stack ran) :
    (validateManifest cwd options env).1 = Except.ok
      { success := false
        manifest :=
          { loaded := false
            path := env.paths.resolveIn (env.paths.resolve (options.workspace.getD cwd))
              (options.rootManifest.getD "dochub.yaml")
            workspace := env.paths.resolve (options.workspace.getD cwd) }
        problems := [Problem.critical "critical-error" "Critical Error" msg
          (if options.verbose.getD false then some stack else none)]
        stats := { totalIssues := 1, loadingErrors := 1, validationErrors := 0 } } :=
  validateManifest_catch cwd options env msg stack ran p hw hm hd hs hp

/-- C6: on the normal return path the problems list is exactly the load-time
diagnostics followed by the validator results, and the stats fields are the
length of problems, the number of diagnostics, and the number of validator
results with items and a non-diagnostic-tagged id. -/
theorem c6_problems_and_stats (cwd : String) (options : ValidateOptions)
    (env : Env) (r : Report) (d : List Diagnostic) (N : Nat)
    (before after : List RuleResult) (p : String)
    (hw : env.workspaceDirExists = true) (hm : env.manifestPathExists = true)
    (hd : env.dochubPath = some p)
    (hp : env.pipeline = PipelineOutcome.ok d N before after)
    (hr : (validateManifest cwd options env).1 = Except.ok r) :
    r.problems =
      d.map Problem.diag ++ (runEngine N before after).results.map Problem.rule ∧
    r.stats.totalIssues = r.problems.length ∧
    r.stats.loadingErrors = d.length ∧
    r.stats.validationErrors =
      ((runEngine N before after).results.filter isRealIssue).length := by
  have hs := setup_ok_of_ok_result cwd options env r p hw hm hd hr
  rw [validateManifest_normal cwd options env d N before after p hw hm hd hs hp] at hr
  cases hr
  exact ⟨rfl, rfl, rfl, rfl⟩

/-- C10: every report validateManifest returns, on the normal branch and on
the catch branch alike, carries the same resolved identification: workspace is
the resolution of the workspace option, path is the resolution of the root
manifest against it, and loaded is true exactly on the normal branch. -/
theorem c10_manifest_identification (cwd : String) (options : ValidateOptions)
    (env : Env) (r : Report) (p : String)
    (hw : env.workspaceDirExists = true) (hm : env.manifestPathExists = true)
    (hd : env.dochubPath = some p)
    (hr : (validateManifest cwd options env).1 = Except.ok r) :
    r.manifest.workspace = env.paths.resolve (options.workspace.getD cwd) ∧
    r.manifest.path = env.paths.resolveIn (env.paths.resolve (options.workspace.getD cwd))
      (options.rootManifest.getD "dochub.yaml") ∧
    (r.manifest.loaded = true ↔
      ∃ d N before after, env.pipeline = PipelineOutcome.ok d N before after) := by
  have hs := setup_ok_of_ok_result cwd options env r p hw hm hd hr
  cases hp : env.pipeline with
  | ok d N before after =>
      rw [validateManifest_normal cwd options env d N before after p hw hm hd hs hp] at hr
      cases hr
      exact ⟨rfl, rfl, by simp [hp]⟩
  | thrown msg stack ran =>
      rw [validateManifest_catch cwd options env msg stack ran p hw hm hd hs hp] at hr
      cases hr
      refine ⟨rfl, rfl, ?_⟩
      constructor
      · intro h
        exact absurd h (by simp)
      · rintro ⟨d, N, b, a, hcontra⟩
        exact absurd hcontra (by simp)

/-- Sample path model: resolve is the identity on the already absolute sample
paths and resolveIn joins with a slash. -/
def idPaths : PathModel :=
  { resolve := fun s => s, resolveIn := fun a b => a ++ "/" ++ b }

/-- Sample options selecting workspace /ws and the default root manifest. -/
def defaultOptions : ValidateOptions :=
  { workspace := some "/ws", rootManifest := some "dochub.yaml", verbose := some false }

/-- Sample environment: workspace and root manifest exist, DocHub found, the
pipeline loads cleanly and the single configured rule reports the
diagnostic-tagged result vTagged before the safety timer. -/
def envC1 : Env :=
  { paths := idPaths, workspaceDirExists := true, manifestPathExists := true,
    dochubPath := some "/dochub", setup := SetupOutcome.ok,
    pipeline := PipelineOutcome.ok [] 1 [vTagged] [] }

/-- The report validateManifest computes in envC1. -/
def reportC1 : Report :=
  { success := true
    manifest := { loaded := true, path := "/ws/dochub.yaml", workspace := "/ws" }
    problems := [Problem.rule vTagged]
    stats := { totalIssues := 1, loadingErrors := 0, validationErrors := 0 } }

/-- Sample environment whose pipeline raises inside the try block. -/
def envThrown : Env :=
  { paths := idPaths, workspaceDirExists := true, manifestPathExists := true,
    dochubPath := some "/dochub", setup := SetupOutcome.ok,
    pipeline := PipelineOutcome.thrown "boom" "trace-here" [SessionAction.loadManifest] }

/-- Sample environment where the workspace directory does not exist. -/
def envNoWorkspace : Env :=
  { paths := idPaths, workspaceDirExists := false, manifestPathExists := false,
    dochubPath := some "/dochub", setup := SetupOutcome.ok,
    pipeline := PipelineOutcome.ok [] 0 [] [] }

/-- Sample environment where workspace and root manifest both exist but no
DocHub installation candidate does. -/
def envNoDochub : Env :=
  { paths := idPaths, workspaceDirExists := true, manifestPathExists := true,
    dochubPath := none, setup := SetupOutcome.ok,
    pipeline := PipelineOutcome.ok [] 0 [] [] }

/-- Sample environment where the DocHub candidate directory exists but holds
no usable DocHub source: the dynamic module imports reject, outside the try
block and before the error cache is cleared. -/
def envBrokenDochub : Env :=
  { paths := idPaths, workspaceDirExists := true, manifestPathExists := true,
    dochubPath := some "/dochub",
    setup := SetupOutcome.failed "Cannot find module /dochub/src/global/manifest/parser.mjs" false,
    pipeline := PipelineOutcome.ok [] 0 [] [] }

/-- Witness for C1 at a concrete run: one rule whose result is
diagnostic-tagged and carries an item; success is still true and
validationErrors still zero. -/
theorem c1_witness :
    (reportC1.success = true ↔
      ∀ v ∈ (runEngine 1 [vTagged] []).results,
        ¬((∃ items, v.items = some items ∧ 0 < items.length) ∧
          strStartsWith v.id "$error" = false)) ∧
    reportC1.stats.validationErrors =
      ((runEngine 1 [vTagged] []).results.filter isRealIssue).length ∧
    (∀ v ∈ (runEngine 1 [vTagged] []).results,
      strStartsWith v.id "$error" = true → isRealIssue v = false) :=
  c1_success_iff_no_real_issue "/cwd" defaultOptions envC1 reportC1 [] 1 [vTagged] []
    "/dochub" rfl rfl rfl rfl rfl

/-- Witness for C2 at a concrete run: the pipeline raised with message boom
and the caller receives the degenerate report instead of the exception. -/
theorem c2_witness :
    (validateManifest "/cwd" defaultOptions envThrown).1 = Except.ok
      { success := false
        manifest := { loaded := false, path := "/ws/dochub.yaml", workspace := "/ws" }
        problems := [Problem.critical "critical-error" "Critical Error" "boom" none]
        stats := { totalIssues := 1, loadingErrors := 1, validationErrors := 0 } } :=
  c2_catch_branch "/cwd" defaultOptions envThrown "boom" "trace-here"
    [SessionAction.loadManifest] "/dochub" rfl rfl rfl rfl rfl

/-- Witness for C6 at a concrete run. -/
theorem c6_witness :
    reportC1.problems =
      ([] : List Diagnostic).map Problem.diag ++
        (runEngine 1 [vTagged] []).results.map Problem.rule ∧
    reportC1.stats.totalIssues = reportC1.problems.length ∧
    reportC1.stats.loadingErrors = ([] : List Diagnostic).length ∧
    reportC1.stats.validationErrors =
      ((runEngine 1 [vTagged] []).results.filter isRealIssue).length :=
  c6_problems_and_stats "/cwd" defaultOptions envC1 reportC1 [] 1 [vTagged] []
    "/dochub" rfl rfl rfl rfl rfl

/-- Witness for C10 at a concrete run on the normal branch. -/
theorem c10_witness :
    reportC1.manifest.workspace = envC1.paths.resolve (defaultOptions.workspace.getD "/cwd") ∧
    reportC1.manifest.path =
      envC1.paths.resolveIn (envC1.paths.resolve (defaultOptions.workspace.getD "/cwd"))
        (defaultOptions.rootManifest.getD "dochub.yaml") ∧
    (reportC1.manifest.loaded = true ↔
      ∃ d N before after, envC1.pipeline = PipelineOutcome.ok d N before after) :=
  c10_manifest_identification "/cwd" defaultOptions envC1 reportC1 "/dochub" rfl rfl rfl rfl

/-- C7 counterexample: an input whose resolved workspace directory and root
manifest file both exist, yet validateManifest raises (the DocHub installation
is not found, validator.mjs lines 62-67 and 115) instead of returning a
report, contradicting the claim that every input passing the two eager
existence checks yields a well-formed validation report. -/
theorem c7_counterexample :
    envNoDochub.workspaceDirExists = true ∧
    envNoDochub.manifestPathExists = true ∧
    (validateManifest "/cwd" defaultOptions envNoDochub).1 =
      Except.error dochubNotFoundMessage :=
  ⟨rfl, rfl, rfl⟩

/-- C7 amended: a missing workspace directory or root manifest is rejected
eagerly with an error naming the missing path and with no session action
performed.  Every error raised before the try block likewise propagates to
the caller instead of being converted to a report: the getDocHubPath error
when no DocHub installation candidate directory exists (after only the
environment initialization), and any error of the pre-try setup stage — the
dynamic DocHub module imports of lines 124-143, which reject for example when
the candidate directory exists but is empty, or cache.errorClear() at line
171 — in all these cases no manifest loading and no rule evaluation has taken
place.  For every input on which the eager checks and the whole pre-try setup
succeed, validateManifest returns a validation report. -/
theorem c7_amended (cwd : String) (options : ValidateOptions) (env : Env) :
    (env.workspaceDirExists = false →
      (validateManifest cwd options env).1 =
        Except.error ("Workspace directory not found: " ++
          env.paths.resolve (options.workspace.getD cwd)) ∧
      (validateManifest cwd options env).2 = []) ∧
    (env.workspaceDirExists = true → env.manifestPathExists = false →
      (validateManifest cwd options env).1 =
        Except.error ("Root manifest not found: " ++
          env.paths.resolveIn (env.paths.resolve (options.workspace.getD cwd))
            (options.rootManifest.getD "dochub.yaml")) ∧
      (validateManifest cwd options env).2 = []) ∧
    (env.workspaceDirExists = true → env.manifestPathExists = true →
      env.dochubPath = none →
      (validateManifest cwd options env).1 = Except.error dochubNotFoundMessage ∧
      (validateManifest cwd options env).2 = [SessionAction.initEnvironment]) ∧
    (∀ p msg clearedCache, env.workspaceDirExists = true →
      env.manifestPathExists = true → env.dochubPath = some p →
      env.setup = SetupOutcome.failed msg clearedCache →
      (validateManifest cwd options env).1 = Except.error msg ∧
      SessionAction.loadManifest ∉ (validateManifest cwd options env).2 ∧
      SessionAction.runValidators ∉ (validateManifest cwd options env).2) ∧
    (∀ p, env.workspaceDirExists = true → env.manifestPathExists = true →
      env.dochubPath = some p → env.setup = SetupOutcome.ok →
      ∃ r, (validateManifest cwd options env).1 = Except.ok r) := by
  refine ⟨?_, ?_, ?_, ?_, ?_⟩
  · intro hw
    constructor <;> simp [validateManifest, hw]
  · intro hw hm
    constructor <;> simp [validateManifest, hw, hm]
  · intro hw hm hd
    constructor <;> simp [validateManifest, hw, hm, hd]
  · intro p msg clearedCache hw hm hd hst
    refine ⟨validateManifest_setup_failed cwd options env msg clearedCache p hw hm hd hst,
      ?_, ?_⟩
    · simp only [validateManifest, hw, hm, hd, hst]
      cases clearedCache <;> simp
    · simp only [validateManifest, hw, hm, hd, hst]
      cases clearedCache <;> simp
  · intro p hw hm hd hst
    cases hp : env.pipeline with
    | ok d N before after =>
        exact ⟨_, validateManifest_normal cwd options env d N before after p hw hm hd hst hp⟩
    | thrown msg stack ran =>
        exact ⟨_, validateManifest_catch cwd options env msg stack ran p hw hm hd hst hp⟩

/-- Witness for the amended C7 at two concrete inputs: a missing workspace
directory makes the error name the resolved path with no session action run,
and a DocHub directory whose module imports reject makes the import error
propagate with no loading and no rule evaluation. -/
theorem c7_witness :
    ((validateManifest "/cwd" defaultOptions envNoWorkspace).1 =
      Except.error ("Workspace directory not found: " ++
        envNoWorkspace.paths.resolve (defaultOptions.workspace.getD "/cwd")) ∧
    (validateManifest "/cwd" defaultOptions envNoWorkspace).2 = []) ∧
    ((validateManifest "/cwd" defaultOptions envBrokenDochub).1 =
      Except.error "Cannot find module /dochub/src/global/manifest/parser.mjs" ∧
    SessionAction.loadManifest ∉ (validateManifest "/cwd" defaultOptions envBrokenDochub).2 ∧
    SessionAction.runValidators ∉ (validateManifest "/cwd" defaultOptions envBrokenDochub).2) :=
  ⟨(c7_amended "/cwd" defaultOptions envNoWorkspace).1 rfl,
   (c7_amended "/cwd" defaultOptions envBrokenDochub).2.2.2.1 "/dochub"
     "Cannot find module /dochub/src/global/manifest/parser.mjs" false rfl rfl rfl rfl⟩

/-- Options consumed by the CLI action handler of src/cli.mjs that are
relevant to the exit code: the requested output format and the optional
output file path. -/
structure CliOptions where
  format : String
  output : Option String
deriving DecidableEq

/-- Format validity check of cli.mjs line 50. -/
def formatIsValid (fmt : String) : Bool :=
  strToLower fmt == "text" || strToLower fmt == "json"

/-- Exit code of the CLI action handler (cli.mjs lines 47-116).  An invalid
format exits 2 before validation runs; an exception thrown by validateManifest
is caught and exits 2; when an output file is requested and fs.writeFileSync
throws, the same catch exits 2; otherwise a successful report exits 0 and a
failed one exits 2 when it has loading errors and 1 when it has none.
writeOk tells whether writing the requested output file succeeds. -/
def cliExitCode (options : CliOptions) (outcome : Except String Report)
    (writeOk : Bool) : Nat :=
  if !(formatIsValid options.format) then 2
  else
    match outcome with
    | Except.error _ => 2
    | Except.ok result =>
        if options.output.isSome && !writeOk then 2
        else if result.success then 0
        else if result.stats.loadingErrors > 0 then 2 else 1

/-- Sample successful report, as produced for a clean workspace. -/
def passReport : Report :=
  { success := true
    manifest := { loaded := true, path := "/ws/dochub.yaml", workspace := "/ws" }
    problems := []
    stats := { totalIssues := 0, loadingErrors := 0, validationErrors := 0 } }

/-- Sample failed report with one validation error and no loading errors. -/
def failReport : Report :=
  { success := false
    manifest := { loaded := true, path := "/ws/dochub.yaml", workspace := "/ws" }
    problems := [Problem.rule vBad]
    stats := { totalIssues := 1, loadingErrors := 0, validationErrors := 1 } }

/-- C9 counterexample: a successful report is consumed by the CLI, but because
writing the requested output file fails before the exit mapping is reached
(cli.mjs line 92, caught at line 109), the process exits 2 rather than 0; so
the exit code is not determined solely by the report. -/
theorem c9_counterexample :
    passReport.success = true ∧
    cliExitCode { format := "json", output := some "report.json" }
      (Except.ok passReport) false = 2 :=
  ⟨rfl, rfl⟩

/-- C9 amended: provided the format option is valid and either no output file
was requested or writing it succeeds, the exit code is determined by the
report alone: 0 on success, otherwise 2 when loadingErrors is positive and 1
when it is zero; and when validateManifest throws, the exit code is 2.  When
writing a requested output file fails, the catch handler exits 2 regardless
of the report. -/
theorem c9_amended (options : CliOptions) (outcome : Except String Report)
    (writeOk : Bool) (hf : formatIsValid options.format = true)
    (hw : options.output.isSome = false ∨ writeOk = true) :
    (∀ r, outcome = Except.ok r →
      cliExitCode options outcome writeOk =
        if r.success then 0 else if r.stats.loadingErrors > 0 then 2 else 1) ∧
    (∀ m, outcome = Except.error m → cliExitCode options outcome writeOk = 2) := by
  constructor
  · intro r hr
    subst hr
    cases hw with
    | inl h => simp [cliExitCode, hf, h]
    | inr h => simp [cliExitCode, hf, h]
  · intro m hm
    subst hm
    simp [cliExitCode, hf]

/-- Witness for the amended C9 at concrete inputs: a failed report with no
loading errors exits 1, and a thrown validation exits 2. -/
theorem c9_witness :
    formatIsValid "text" = true ∧
    cliExitCode { format := "text", output := none } (Except.ok failReport) true =
      (if failReport.success then 0
       else if failReport.stats.loadingErrors > 0 then 2 else 1) ∧
    cliExitCode { format := "text", output := none }
      (Except.error "Workspace directory not found: /nope") true = 2 :=
  ⟨rfl,
   (c9_amended { format := "text", output := none } (Except.ok failReport) true rfl
     (Or.inl rfl)).1 failReport rfl,
   (c9_amended { format := "text", output := none }
     (Except.error "Workspace directory not found: /nope") true rfl
     (Or.inl rfl)).2 "Workspace directory not found: /nope" rfl⟩

end Archctl
